import Mathlib

/-!
Verification of `src/script.js` (the `upload` function) against its
specification.

The program is a single browser-side function:

```js
function upload() {
  const msg = document.getElementById("msg");
  msg.innerText = "Connecting...";

  fetch("/api/process", { method: "POST" })
    .then(res => res.json())
    .then(data => msg.innerText = data.message)
    .catch(() => msg.innerText = "Error");
}
```

We embed it shallowly:

* The DOM is reduced to the one element the code touches: the element with
  id `"msg"`, modelled as `Option String` (its `innerText`), `none` meaning
  no such element exists in the page.
* `fetch` is external browser code; its possible outcomes are a parameter:
  either a network-level failure (the promise returned by `fetch` rejects —
  note that an HTTP response with *any* status code, 2xx or not, resolves
  the promise) or a response carrying a status code and a body, where the
  outcome of `res.json()` on that body is either a parsed JSON value or a
  parse failure (rejection).
* JavaScript is single-threaded and event-driven, so the run of one
  invocation splits into a synchronous prefix (lines 2–5: element lookup,
  first label assignment, issuing the request) and a scheduled continuation
  (the promise chain of lines 6–8) that runs when the request completes.
  The synchronous prefix records an event trace so that ordering claims
  (label set before the request is issued; exactly one request) are visible.
* Overlapping invocations are modelled by running both synchronous prefixes
  and then applying the two completion continuations in either order.
-/

/-- A JavaScript value produced by `JSON.parse` (i.e. by `res.json()`).
JSON numbers are modelled as integers; no claim involves numeric rendering.
Object fields are listed with distinct keys, as in a parsed JS object. -/
inductive JSValue where
  | jnull
  | jbool (b : Bool)
  | jnum (n : Int)
  | jstr (s : String)
  | jarr (elems : List JSValue)
  | jobj (fields : List (String × JSValue))

mutual

/-- JavaScript `ToString` on a value, as performed when a value is assigned
to `innerText`: `null ↦ "null"`, booleans and numbers render as usual,
strings are themselves, arrays render via `Array.prototype.join` with `","`
(where a `null` element renders as the empty string), plain objects render
as `"[object Object]"`. -/
def jsToString : JSValue → String
  | .jnull => "null"
  | .jbool true => "true"
  | .jbool false => "false"
  | .jnum n => toString n
  | .jstr s => s
  | .jarr elems => String.intercalate "," (jsArrayElemStrings elems)
  | .jobj _ => "[object Object]"

/-- Element strings for `Array.prototype.join`: a `null` element contributes
the empty string, any other element its `ToString`. -/
def jsArrayElemStrings : List JSValue → List String
  | [] => []
  | .jnull :: rest => "" :: jsArrayElemStrings rest
  | v :: rest => jsToString v :: jsArrayElemStrings rest

end

/-- Result of a JavaScript property access `data.name`. -/
inductive PropResult where
  | val (v : JSValue)
  | missingProp
  | throwTypeError

/-- JavaScript property access `data.name` for `data` a value coming out of
`JSON.parse`: on `null` it throws a `TypeError`; on an object it yields the
field's value, or `undefined` when the field is absent; on any other value
(string, number, boolean, array) the access yields `undefined` (primitives
are boxed, and no JSON value has a `message` property on its prototype). -/
def getField : JSValue → String → PropResult
  | .jnull, _ => .throwTypeError
  | .jobj fields, name =>
      match fields.lookup name with
      | some v => .val v
      | none => .missingProp
  | _, _ => .missingProp

/-- The string an `innerText` assignment stores, from the assigned value
(`none` = `undefined`). Per the HTML IDL, `innerText` is a
`[LegacyNullToEmptyString] DOMString`: assigning `null` stores `""`,
assigning `undefined` stores `"undefined"`, any other value its `ToString`. -/
def innerTextOfAssigned : Option JSValue → String
  | none => "undefined"
  | some .jnull => ""
  | some v => jsToString v

/-- Outcome of `res.json()`: the parsed value, or a rejection because the
body is not valid JSON. -/
inductive JsonResult where
  | ok (v : JSValue)
  | parseError

/-- Outcome of the `fetch` call, once it settles: the promise rejects only
on a network-level failure; any HTTP response — 2xx or not — resolves it
with a response object carrying the status code and a body whose
`res.json()` outcome is `body`. -/
inductive FetchResult where
  | networkError
  | response (status : Nat) (body : JsonResult)

/-- An HTTP request as issued by `fetch`. -/
structure Request where
  method : String
  path : String
  body : Option String
  headers : List (String × String)
deriving DecidableEq

/-- The one request the code issues: `fetch("/api/process", { method: "POST" })`
— no body, no headers beyond defaults. -/
def postProcessRequest : Request :=
  { method := "POST", path := "/api/process", body := none, headers := [] }

/-- The page state the code can observe or mutate: the `innerText` of the
element with id `"msg"` (`none`: no such element exists). -/
structure DOM where
  msgElem : Option String
deriving DecidableEq

/-- An observable action of the synchronous prefix of `upload`, in program
order. -/
inductive SyncEvent where
  | setLabel (s : String)
  | httpRequest (r : Request)
deriving DecidableEq

/-- The event trace of a successful synchronous prefix of `upload`: first
the label assignment of line 3, then the request of line 5. -/
def uploadEvents : List SyncEvent :=
  [.setLabel "Connecting...", .httpRequest postProcessRequest]

/-- The synchronous prefix of `upload` (lines 2–5): look up the element with
id `"msg"`; if it is absent, `getElementById` returns `null` and the
assignment `msg.innerText = "Connecting..."` on line 3 throws a `TypeError`
— the function aborts before line 5, having emitted no events (the error
carries the events emitted before the throw, here `[]`). Otherwise set the
label to `"Connecting..."` and issue the POST request. The returned
`Option JSValue` is the function's return value: the body has no `return`
statement, so it returns `undefined` (`none`). -/
def uploadSync (dom : DOM) : Except (List SyncEvent) (DOM × List SyncEvent × Option JSValue) :=
  match dom.msgElem with
  | none => .error []
  | some _ => .ok ({ msgElem := some "Connecting..." }, uploadEvents, none)

/-- The string the promise chain of lines 6–8 finally stores in the label,
as a function of how the fetch settles:

* `fetch` rejects (network failure) → the `.catch` of line 8 runs: `"Error"`;
* `res.json()` rejects (non-JSON body) → the `.catch` runs: `"Error"`;
* the body parses to `data` → line 7 assigns `data.message` to the label;
  if that property access throws (`data` is the JSON literal `null`), the
  exception propagates from the `.then` handler into the `.catch`: `"Error"`;
  if the field is absent the assignment stores `undefined`'s rendering;
  otherwise it stores the field value's rendering. -/
def uploadContinuation : FetchResult → String
  | .networkError => "Error"
  | .response _ .parseError => "Error"
  | .response _ (.ok data) =>
      match getField data "message" with
      | .throwTypeError => "Error"
      | .missingProp => innerTextOfAssigned none
      | .val v => innerTextOfAssigned (some v)

/-- Event-loop step: the scheduled continuation of one settled invocation
runs, writing its outcome string to the captured `msg` element. -/
def applyCompletion (dom : DOM) (outcome : FetchResult) : DOM :=
  { msgElem := dom.msgElem.map fun _ => uploadContinuation outcome }

/-- One full invocation of `upload`: the synchronous prefix, then — if the
request ever settles (`outcome = some o`) — the scheduled continuation.
`outcome = none` models a request that never settles: no further event ever
runs for this invocation. -/
def upload (dom : DOM) (outcome : Option FetchResult) :
    Except (List SyncEvent) (DOM × List SyncEvent) :=
  match uploadSync dom with
  | .error evs => .error evs
  | .ok (d, evs, _ret) =>
      match outcome with
      | none => .ok (d, evs)
      | some o => .ok (applyCompletion d o, evs)

/-- Two overlapping invocations of `upload`: both synchronous prefixes run
before either request settles, then the two continuations run in completion
order (`oFirst` settles first, `oLast` last). Returns the final page state
and the concatenated event traces of the two synchronous prefixes. -/
def twoOverlapping (dom : DOM) (oFirst oLast : FetchResult) :
    Except (List SyncEvent) (DOM × List SyncEvent) :=
  match uploadSync dom with
  | .error evs => .error evs
  | .ok (d1, evs1, _) =>
      match uploadSync d1 with
      | .error evs => .error evs
      | .ok (d2, evs2, _) =>
          .ok (applyCompletion (applyCompletion d2 oFirst) oLast, evs1 ++ evs2)

/-- The HTTP requests recorded in an event trace, in order. -/
def requestsOf (evs : List SyncEvent) : List Request :=
  evs.filterMap fun e =>
    match e with
    | .httpRequest r => some r
    | _ => none

/-- C1: whenever the request completes and its body parses as JSON to an
object carrying a text field `message`, the label ends equal to that
field's value. -/
theorem upload_message_sets_label (t : String) (st : Nat)
    (fields : List (String × JSValue)) (m : String)
    (h : fields.lookup "message" = some (.jstr m)) :
    upload ⟨some t⟩ (some (.response st (.ok (.jobj fields)))) =
      .ok (⟨some m⟩, uploadEvents) := by
  simp [upload, uploadSync, applyCompletion, uploadContinuation, getField, h,
    innerTextOfAssigned, jsToString]

/-- Witness for C1: the response body `{"message": "Done"}` leaves the label
reading `"Done"`. -/
theorem upload_message_sets_label_witness :
    upload ⟨some ""⟩ (some (.response 200 (.ok (.jobj [("message", .jstr "Done")])))) =
      .ok (⟨some "Done"⟩, uploadEvents) :=
  upload_message_sets_label "" 200 [("message", .jstr "Done")] "Done" rfl

/-- C2: every invocation whose element lookup succeeds synchronously sets the
label to `"Connecting..."`, and in the event trace that assignment precedes
the request; the eventual outcome of the request is not an input of
`uploadSync`, so this holds regardless of it, before any continuation runs. -/
theorem upload_sets_connecting_synchronously (t : String) :
    uploadSync ⟨some t⟩ = .ok (⟨some "Connecting..."⟩, uploadEvents, none) ∧
    uploadEvents = [.setLabel "Connecting...", .httpRequest postProcessRequest] :=
  ⟨rfl, rfl⟩

/-- C3: every failure — network failure, non-JSON body (parse error) — takes
the single `.catch` branch and leaves the label at the same literal string
`"Error"`, with no distinction between causes. -/
theorem upload_failure_error :
    uploadContinuation .networkError = "Error" ∧
    (∀ st, uploadContinuation (.response st .parseError) = "Error") ∧
    (∀ t st, upload ⟨some t⟩ (some .networkError) = .ok (⟨some "Error"⟩, uploadEvents) ∧
      upload ⟨some t⟩ (some (.response st .parseError)) = .ok (⟨some "Error"⟩, uploadEvents)) :=
  ⟨rfl, fun _ => rfl, fun _ _ => ⟨rfl, rfl⟩⟩

/-- Counterexample to C4: a 404 response whose body is the valid JSON
`{"message": "fail"}` leaves the label at `"fail"`, not `"Error"`:
the code never inspects the status code, and `fetch` resolves (does not
reject) on non-2xx responses. -/
theorem upload_non2xx_counterexample :
    upload ⟨some "x"⟩ (some (.response 404 (.ok (.jobj [("message", .jstr "fail")])))) =
      .ok (⟨some "fail"⟩, uploadEvents) ∧ "fail" ≠ "Error" :=
  ⟨rfl, by decide⟩

/-- C4 as amended: the status code is never inspected — a response is
handled identically whatever its status, so a non-2xx response is processed
exactly as a 2xx response with the same body; the error branch is reached
only through network failure or JSON parse failure. -/
theorem upload_status_never_inspected (st st' : Nat) (b : JsonResult) :
    uploadContinuation (.response st b) = uploadContinuation (.response st' b) := by
  cases b <;> rfl

/-- C5: a response whose body parses to an object lacking a `message` field
assigns `undefined` to the label, which renders as the text `"undefined"` —
not `"Error"`, and not the unchanged label. -/
theorem upload_missing_message_undefined (t : String) (st : Nat)
    (fields : List (String × JSValue)) (h : fields.lookup "message" = none) :
    upload ⟨some t⟩ (some (.response st (.ok (.jobj fields)))) =
      .ok (⟨some "undefined"⟩, uploadEvents) := by
  simp [upload, uploadSync, applyCompletion, uploadContinuation, getField, h,
    innerTextOfAssigned]

/-- Witness for C5: a response body `{"other": 1}` with no `message` field
leaves the label reading `"undefined"`. -/
theorem upload_missing_message_undefined_witness :
    upload ⟨some ""⟩ (some (.response 200 (.ok (.jobj [("other", .jnum 1)])))) =
      .ok (⟨some "undefined"⟩, uploadEvents) :=
  upload_missing_message_undefined "" 200 [("other", .jnum 1)] rfl

/-- C6: every invocation (with the element present) issues exactly one HTTP
request — method `POST`, path `"/api/process"`, no body, no headers — and
the function itself returns no value (`undefined`, the `none` in the
`uploadSync` result: its body has no `return` statement). -/
theorem upload_one_post_request (t : String) :
    uploadSync ⟨some t⟩ = .ok (⟨some "Connecting..."⟩, uploadEvents, none) ∧
    requestsOf uploadEvents = [postProcessRequest] ∧
    postProcessRequest =
      { method := "POST", path := "/api/process", body := none, headers := [] } :=
  ⟨rfl, rfl, rfl⟩

/-- C7: two overlapping invocations each issue their own independent request
(two request events in the combined trace), and whichever completion is
scheduled last determines the final label text, for either completion order
— no cancellation or ordering between the two is imposed. -/
theorem upload_overlapping_last_wins (t : String) (oFirst oLast : FetchResult) :
    twoOverlapping ⟨some t⟩ oFirst oLast =
      .ok (⟨some (uploadContinuation oLast)⟩, uploadEvents ++ uploadEvents) ∧
    requestsOf (uploadEvents ++ uploadEvents) = [postProcessRequest, postProcessRequest] :=
  ⟨rfl, rfl⟩

/-- C8: an invocation whose request never settles leaves the label at
`"Connecting..."`: after the synchronous prefix, the only action of `upload`
is the continuation scheduled on completion, so with no completion no
timeout, retry or other mechanism ever changes the label. -/
theorem upload_hung_connecting (t : String) :
    upload ⟨some t⟩ none = .ok (⟨some "Connecting..."⟩, uploadEvents) :=
  rfl

/-- C9 (implicit): if an element with id `"msg"` exists, the lookup is
non-null and both label assignments succeed, for every outcome; if it does
not, the first assignment throws synchronously (`.error`) with an empty
event trace — in particular no HTTP request is ever issued. -/
theorem upload_msg_element (o : Option FetchResult) :
    (∀ t, ∃ s, upload ⟨some t⟩ o = .ok (⟨some s⟩, uploadEvents)) ∧
    upload ⟨none⟩ o = .error [] ∧ requestsOf [] = [] := by
  refine ⟨fun t => ?_, rfl, rfl⟩
  cases o with
  | none => exact ⟨"Connecting...", rfl⟩
  | some oc => exact ⟨uploadContinuation oc, rfl⟩

/-- C10 (implicit): the single `.catch` also covers exceptions thrown inside
the success continuations: when the body parses to the JSON literal `null`,
reading `.message` throws a `TypeError` inside the second `.then` handler,
and the label still ends at `"Error"` instead of an unhandled rejection. -/
theorem upload_null_body_error (t : String) (st : Nat) :
    upload ⟨some t⟩ (some (.response st (.ok .jnull))) =
      .ok (⟨some "Error"⟩, uploadEvents) :=
  rfl
